import Mathlib

/-!
Shallow embedding of the SPN Hub supervisor (`cmds/hub/main.go`) and of the
firewall filter module's `prep` function, with theorems checking the
natural-language specification against them.

The supervisor's `main` is modelled phase by phase:
* instance creation and the command-line-operation path (`mainStartup`),
* the single `select` that waits for a signal or spontaneous instance stop
  (`supervisorRun`),
* the shutdown phase: the escalation goroutine that counts signals down from 5
  (`shutdownSignalLoop`), the 3-minute watchdog and the synchronous
  `instance.Stop()` call, combined in `shutdownPhase` with an explicit
  schedule (`ShutdownRun`) saying which concurrent event resolved first.

Observable effects (prints, diagnostic stack dumps, log calls, the call to
`instance.Stop()`) are recorded as an explicit event trace so that statements
like "a dump is written before the forced exit" or "stop() is never invoked"
can be expressed.
-/

/-- The signals the supervisor registers interest in
(`os.Interrupt`/`SIGINT`, `SIGHUP`, `SIGTERM`, `SIGQUIT`, and `sigUSR1`). -/
inductive Sig where
  | hup
  | int
  | term
  | quit
  | usr1
  deriving DecidableEq, Repr

/-- `sigUSR1` is the diagnostic-dump-request signal; the code compares
`sig == sigUSR1`. -/
def Sig.isDiagnostic (s : Sig) : Bool := s = Sig.usr1

/-- The four termination-kind signals. -/
def Sig.isTermination (s : Sig) : Bool := ¬ (s = Sig.usr1)

/-- Output stream for `fmt` prints: `fmt.Printf`/`fmt.Println` write to
standard output, `fmt.Fprintf(os.Stderr, ...)` writes to standard error. -/
inductive OutStream where
  | stdout
  | stderr
  deriving DecidableEq, Repr

/-- A line printed by the process, with the stream it goes to. -/
structure Output where
  stream : OutStream
  text : String
  deriving DecidableEq, Repr

/-- Observable events of the supervisor, in program order within a task. -/
inductive Event where
  /-- `printStackTo(os.Stderr, label)`: a diagnostic dump with this label. -/
  | dump (label : String)
  /-- `fmt.Printf` / `fmt.Println` to standard output. -/
  | printOut (msg : String)
  /-- `slog.Warn`. -/
  | logWarn (msg : String)
  /-- `slog.Error`. -/
  | logError (msg : String)
  /-- `log.Shutdown()`. -/
  | logShutdown
  /-- The supervisor invokes `instance.Stop()`. -/
  | callStop
  deriving DecidableEq, Repr

/-- Whether an event is a diagnostic dump. -/
def Event.isDump : Event → Bool
  | .dump _ => true
  | _ => false

/-- The slice of the service instance the supervisor consumes: the optional
one-shot command-line operation (`none` when the `CommandLineOperation` field
is nil, otherwise `some r` where `r` is the error the operation returns, with
`none` meaning success) and the exit code reported by `instance.ExitCode()`. -/
structure Instance where
  commandLineOperation : Option (Option String)
  exitCode : Int
  deriving DecidableEq, Repr

/-- Result of `spn.New()` as the `switch` in `main` distinguishes it:
success, the distinguished `mgr.ErrExecuteCmdLineOp`, or any other error. -/
inductive CreateRes where
  | ok (inst : Instance)
  | cmdLineOp (inst : Instance)
  | failure (msg : String)
  deriving DecidableEq, Repr

/-- What the startup portion of `main` (lines 49-76) resolves to: either the
process exits with a code after printing some lines, or it proceeds to run
the long-running service. -/
inductive StartupOutcome where
  | exit (code : Int) (outputs : List Output)
  | runService (inst : Instance)
  deriving DecidableEq, Repr

/-- Whether a startup outcome proceeds to run the long-running service. -/
def StartupOutcome.startsService : StartupOutcome → Bool
  | .runService _ => true
  | .exit _ _ => false

/-- Lines 49-76 of `main.go`: instance creation and the command-line
operation path.  On a generic creation error: print to standard output and
exit 2.  With `execCmdLine` set: exit 3 if the instance has no operation,
otherwise run it and exit 0 on success or print to standard error and
exit 3 on failure. -/
def mainStartup : CreateRes → StartupOutcome
  | .failure msg =>
      .exit 2 [⟨OutStream.stdout, s!"error creating an instance: {msg}"⟩]
  | .ok inst => .runService inst
  | .cmdLineOp inst =>
      match inst.commandLineOperation with
      | none =>
          .exit 3 [⟨OutStream.stdout,
            "command line operation execution requested, but not set"⟩]
      | some opResult =>
          match opResult with
          | some e =>
              .exit 3 [⟨OutStream.stderr, s!"command line operation failed: {e}"⟩]
          | none => .exit 0 []

/-- The event the single `select` (lines 103-116) resolves on: a signal from
`signalCh`, or `instance.Stopped()` firing. -/
inductive WaitEvent where
  | signal (s : Sig)
  | stopped
  deriving DecidableEq, Repr

/-- One iteration of the shutdown-phase signal goroutine's loop body
(lines 123-130): receive a signal (its value is discarded), decrement
`forceCnt`, print the remaining budget if it is still positive, otherwise
dump the stack and force-exit with code 1.  `shutdownSignalLoop cnt sigs`
processes the signal list `sigs` starting from counter value `cnt`,
returning the final counter, the emitted events, and `some code` if a forced
exit happened (no further signals are consumed after it). -/
def shutdownSignalLoop : Int → List Sig → Int × List Event × Option Int
  | cnt, [] => (cnt, [], none)
  | cnt, _ :: rest =>
      if cnt - 1 > 0 then
        let r := shutdownSignalLoop (cnt - 1) rest
        (r.1, Event.printOut
          s!" <INTERRUPT> again, but already shutting down - {cnt - 1} more to force"
          :: r.2.1, r.2.2)
      else
        (cnt - 1, [Event.dump "PRINTING STACK ON FORCED EXIT"], some 1)

/-- The schedule of the shutdown phase's concurrent race: the signals the
escalation goroutine received before anything resolved the race, whether the
3-minute watchdog elapsed before `instance.Stop()` returned, and the error
`instance.Stop()` returns when it does return. -/
structure ShutdownRun where
  signals : List Sig
  watchdogElapsed : Bool
  stopErr : Option String
  deriving Repr

/-- Lines 118-146 of `main.go`: the shutdown phase.  The main task calls
`instance.Stop()`; concurrently the escalation goroutine counts signals down
from 5 and the watchdog goroutine sleeps 3 minutes.  Whichever resolves
first determines the exit: escalation forces exit 1 after a dump; the
watchdog forces exit 1 after a dump; otherwise `Stop` returns, a stop error
is logged (non-fatal), logging is shut down and the process exits with
`instance.ExitCode()`. -/
def shutdownPhase (inst : Instance) (r : ShutdownRun) : Int × List Event :=
  let esc := shutdownSignalLoop 5 r.signals
  match esc.2.2 with
  | some code => (code, Event.callStop :: esc.2.1)
  | none =>
      if r.watchdogElapsed then
        (1, Event.callStop :: esc.2.1
          ++ [Event.dump "PRINTING STACK - TAKING TOO LONG FOR SHUTDOWN"])
      else
        match r.stopErr with
        | some e =>
            (inst.exitCode, Event.callStop :: esc.2.1
              ++ [Event.logError s!"failed to stop: {e}", Event.logShutdown])
        | none =>
            (inst.exitCode, Event.callStop :: esc.2.1 ++ [Event.logShutdown])

/-- Lines 103-146 of `main.go`: the single `select` and what follows it.
If `instance.Stopped()` fired first: shut down logging and exit with the
instance's exit code (no shutdown phase, `Stop` is never called).  If a
signal arrived: the branch prints a stack dump when it is `sigUSR1` and an
interrupt notice otherwise, and in BOTH cases execution falls through to the
shutdown phase — the `select` is not inside a loop, so there is no way back
to waiting. -/
def supervisorRun (inst : Instance) (first : WaitEvent) (r : ShutdownRun) :
    Int × List Event :=
  match first with
  | .stopped => (inst.exitCode, [Event.logShutdown])
  | .signal s =>
      let pre :=
        if s = Sig.usr1 then
          [Event.dump "PRINTING STACK ON REQUEST"]
        else
          [Event.printOut " <INTERRUPT>",
           Event.logWarn "program was interrupted, stopping"]
      ((shutdownPhase inst r).1, pre ++ (shutdownPhase inst r).2)

/-- The error outcomes of the external calls `prep` in the firewall filter
module (`part_000`) makes: the three `module.RegisterEventHook` calls
("config", "profiles", "captain"), `registerConfig()`, and `prepAPIAuth()`.
`none` means the call succeeded. -/
structure PrepEnv where
  hookConfigErr : Option String
  hookProfilesErr : Option String
  hookCaptainErr : Option String
  registerConfigErr : Option String
  prepAPIAuthErr : Option String
  deriving Repr

/-- `prep()` of the firewall filter module: register the verdict handler,
register three event hooks whose registration errors are only logged via
`log.Errorf`, then return `registerConfig()`'s error if any, else
`prepAPIAuth()`'s result.  Returns the function's error result together with
the list of logged error lines. -/
def prep (e : PrepEnv) : Option String × List String :=
  let logs1 := match e.hookConfigErr with
    | some err => [s!"interception: failed registering event hook: {err}"]
    | none => []
  let logs2 := match e.hookProfilesErr with
    | some err => [s!"failed registering event hook: {err}"]
    | none => []
  let logs3 := match e.hookCaptainErr with
    | some err => [s!"failed registering event hook: {err}"]
    | none => []
  let logs := logs1 ++ logs2 ++ logs3
  match e.registerConfigErr with
  | some err => (some err, logs)
  | none => (e.prepAPIAuthErr, logs)

/-- Helper: with strictly more budget than signals, the escalation loop
neither forces an exit nor writes any dump, and it decrements the counter
once per signal. -/
theorem shutdownSignalLoop_lt (sigs : List Sig) : ∀ cnt : Int,
    (sigs.length : Int) < cnt →
    (shutdownSignalLoop cnt sigs).1 = cnt - sigs.length ∧
    (shutdownSignalLoop cnt sigs).2.2 = none ∧
    ∀ ev ∈ (shutdownSignalLoop cnt sigs).2.1, ev.isDump = false := by
  induction sigs with
  | nil =>
      intro cnt h
      simp [shutdownSignalLoop]
  | cons s rest ih =>
      intro cnt h
      have hlen : ((s :: rest).length : Int) = (rest.length : Int) + 1 := by
        simp
      have hlt : (rest.length : Int) < cnt - 1 := by omega
      have hpos : cnt - 1 > 0 := by
        have : (0 : Int) ≤ (rest.length : Int) := Int.ofNat_nonneg _
        omega
      obtain ⟨h1, h2, h3⟩ := ih (cnt - 1) hlt
      simp only [shutdownSignalLoop, if_pos hpos]
      refine ⟨by rw [h1, hlen]; ring, h2, ?_⟩
      intro ev hev
      rcases List.mem_cons.mp hev with hev | hev
      · rw [hev]; rfl
      · exact h3 ev hev

example : shutdownSignalLoop 5 [Sig.int, Sig.usr1] =
    (3, [Event.printOut " <INTERRUPT> again, but already shutting down - 4 more to force",
         Event.printOut " <INTERRUPT> again, but already shutting down - 3 more to force"],
     none) := by decide

/-- C3: with the Escalation Counter starting at its budget of 5 as shutdown
begins, four termination-kind signals do not force an exit (the counter
drops to 1 and no dump is written), and a fifth one forces exit code 1 with
the forced-exit diagnostic dump as the last event before the exit. -/
theorem escalation_budget_five (inst : Instance) (a b c d e : Sig)
    (w : Bool) (se : Option String)
    (h : a.isTermination = true ∧ b.isTermination = true ∧
         c.isTermination = true ∧ d.isTermination = true ∧
         e.isTermination = true) :
    (shutdownSignalLoop 5 [a, b, c, d]).2.2 = none ∧
    (shutdownSignalLoop 5 [a, b, c, d]).1 = 1 ∧
    (shutdownSignalLoop 5 [a, b, c, d, e]).2.2 = some 1 ∧
    (shutdownSignalLoop 5 [a, b, c, d, e]).2.1.getLast? =
      some (Event.dump "PRINTING STACK ON FORCED EXIT") ∧
    (shutdownPhase inst ⟨[a, b, c, d, e], w, se⟩).1 = 1 := by
  refine ⟨rfl, rfl, rfl, rfl, ?_⟩
  simp only [shutdownPhase]
  rfl

/-- C3 witness: the escalation facts at five concrete termination signals. -/
theorem escalation_budget_five_witness :
    (shutdownSignalLoop 5 [Sig.int, Sig.term, Sig.hup, Sig.quit]).2.2 = none ∧
    (shutdownSignalLoop 5 [Sig.int, Sig.term, Sig.hup, Sig.quit]).1 = 1 ∧
    (shutdownSignalLoop 5 [Sig.int, Sig.term, Sig.hup, Sig.quit, Sig.int]).2.2
      = some 1 ∧
    (shutdownSignalLoop 5 [Sig.int, Sig.term, Sig.hup, Sig.quit, Sig.int]).2.1.getLast?
      = some (Event.dump "PRINTING STACK ON FORCED EXIT") ∧
    (shutdownPhase ⟨none, 0⟩
      ⟨[Sig.int, Sig.term, Sig.hup, Sig.quit, Sig.int], false, none⟩).1 = 1 :=
  escalation_budget_five ⟨none, 0⟩ Sig.int Sig.term Sig.hup Sig.quit Sig.int
    false none (by decide)

/-- C2 counterexample: during the shutdown phase a single diagnostic signal
(`sigUSR1`) does NOT leave the Escalation Counter at 5 — it decrements it to
4 — and it produces no diagnostic dump. -/
theorem diag_signal_decrements_counter :
    (shutdownSignalLoop 5 [Sig.usr1]).1 ≠ 5 ∧
    (shutdownSignalLoop 5 [Sig.usr1]).1 = 4 ∧
    (shutdownSignalLoop 5 [Sig.usr1]).2.1.any Event.isDump = false := by
  decide

/-- C2 amended: the shutdown-phase signal goroutine discards the received
signal's value, so a diagnostic-kind signal is treated exactly like a
termination-kind one — it decrements the Escalation Counter — and while the
counter stays positive no diagnostic dump is written (one is written only on
the forced exit). -/
theorem shutdown_signal_kind_irrelevant (cnt : Int) (s s' : Sig)
    (rest : List Sig) (hcnt : 1 < cnt) :
    shutdownSignalLoop cnt (s :: rest) = shutdownSignalLoop cnt (s' :: rest) ∧
    shutdownSignalLoop cnt [s] =
      (cnt - 1,
       [Event.printOut
         s!" <INTERRUPT> again, but already shutting down - {cnt - 1} more to force"],
       none) := by
  have hpos : cnt - 1 > 0 := by omega
  refine ⟨rfl, ?_⟩
  simp [shutdownSignalLoop, hpos]

/-- C2 amended witness: a diagnostic signal and a termination signal produce
the same escalation step, decrementing 5 to 4 with no dump. -/
theorem shutdown_signal_kind_irrelevant_witness :
    shutdownSignalLoop 5 [Sig.usr1] = shutdownSignalLoop 5 [Sig.int] ∧
    shutdownSignalLoop 5 [Sig.usr1] =
      (4,
       [Event.printOut " <INTERRUPT> again, but already shutting down - 4 more to force"],
       none) :=
  shutdown_signal_kind_irrelevant 5 Sig.usr1 Sig.int [] (by decide)

/-- Helper: the last element of a list with a single element appended. -/
theorem getLast?_append_singleton {α : Type} (l : List α) (a : α) :
    (l ++ [a]).getLast? = some a := by
  rw [List.getLast?_append_cons]
  rfl

/-- C1 (code behaviour at the failing input): a `sigUSR1` received during
the initial wait writes the requested stack dump but then falls through to
the shutdown phase — `instance.Stop()` is invoked — because the `select` at
lines 103-116 is not inside a loop; the supervisor does not return to
waiting. -/
theorem usr1_falls_through_to_shutdown :
    supervisorRun ⟨none, 0⟩ (WaitEvent.signal Sig.usr1) ⟨[], false, none⟩ =
      (0, [Event.dump "PRINTING STACK ON REQUEST", Event.callStop,
           Event.logShutdown]) ∧
    Event.callStop ∈
      (supervisorRun ⟨none, 0⟩ (WaitEvent.signal Sig.usr1) ⟨[], false, none⟩).2 := by
  decide

/-- C4: when the instance reports spontaneous stop before any signal, the
supervisor shuts down logging and exits with exactly the instance's exit
code, and `instance.Stop()` is never invoked. -/
theorem spontaneous_stop_skips_stop (inst : Instance) (r : ShutdownRun) :
    supervisorRun inst WaitEvent.stopped r = (inst.exitCode, [Event.logShutdown]) ∧
    Event.callStop ∉ (supervisorRun inst WaitEvent.stopped r).2 := by
  refine ⟨rfl, ?_⟩
  simp [supervisorRun]

/-- C5: if the 3-minute watchdog elapses before the graceful stop call
returns, the process force-exits with code 1 and the last event before the
exit is the watchdog's diagnostic dump, whatever the Escalation Counter's
state (any number of signals short of the forcing budget). -/
theorem watchdog_forces_exit (inst : Instance) (r : ShutdownRun)
    (hw : r.watchdogElapsed = true)
    (hcnt : (r.signals.length : Int) < 5) :
    (shutdownPhase inst r).1 = 1 ∧
    (shutdownPhase inst r).2.getLast? =
      some (Event.dump "PRINTING STACK - TAKING TOO LONG FOR SHUTDOWN") := by
  obtain ⟨-, h2, -⟩ := shutdownSignalLoop_lt r.signals 5 hcnt
  refine ⟨?_, ?_⟩
  · simp [shutdownPhase, h2, hw]
  · simp only [shutdownPhase, h2, hw, if_true]
    exact getLast?_append_singleton _ _

/-- C5 witness: the watchdog facts with three termination signals already
received (counter at 2) when the deadline elapses. -/
theorem watchdog_forces_exit_witness :
    (shutdownPhase ⟨none, 7⟩ ⟨[Sig.int, Sig.int, Sig.term], true, none⟩).1 = 1 ∧
    (shutdownPhase ⟨none, 7⟩ ⟨[Sig.int, Sig.int, Sig.term], true, none⟩).2.getLast? =
      some (Event.dump "PRINTING STACK - TAKING TOO LONG FOR SHUTDOWN") :=
  watchdog_forces_exit ⟨none, 7⟩ ⟨[Sig.int, Sig.int, Sig.term], true, none⟩
    rfl (by decide)

/-- C8: when the graceful stop call returns an error (before watchdog or
escalation fired), the error is logged, logging is shut down, and the
process exits with the instance's exit code regardless of the stop error. -/
theorem stop_error_nonfatal (inst : Instance) (r : ShutdownRun) (e : String)
    (hw : r.watchdogElapsed = false)
    (hcnt : (r.signals.length : Int) < 5)
    (he : r.stopErr = some e) :
    shutdownPhase inst r =
      (inst.exitCode,
       Event.callStop :: (shutdownSignalLoop 5 r.signals).2.1
         ++ [Event.logError s!"failed to stop: {e}", Event.logShutdown]) := by
  obtain ⟨-, h2, -⟩ := shutdownSignalLoop_lt r.signals 5 hcnt
  simp only [shutdownPhase, h2, hw, he]
  rfl

/-- C8 witness: a concrete failing stop still exits with the instance's
nonzero exit code after logging the stop error. -/
theorem stop_error_nonfatal_witness :
    shutdownPhase ⟨none, 4⟩ ⟨[], false, some "db busy"⟩ =
      (4, [Event.callStop, Event.logError "failed to stop: db busy",
           Event.logShutdown]) :=
  stop_error_nonfatal ⟨none, 4⟩ ⟨[], false, some "db busy"⟩ "db busy"
    rfl (by decide) rfl

/-- C9: a graceful stop that returns no error (before watchdog or
escalation fired) together with an instance exit code of 0 yields overall
process exit code 0. -/
theorem graceful_stop_zero_exit (inst : Instance) (r : ShutdownRun)
    (hw : r.watchdogElapsed = false)
    (hcnt : (r.signals.length : Int) < 5)
    (he : r.stopErr = none)
    (hz : inst.exitCode = 0) :
    (shutdownPhase inst r).1 = 0 := by
  obtain ⟨-, h2, -⟩ := shutdownSignalLoop_lt r.signals 5 hcnt
  simp [shutdownPhase, h2, hw, he, hz]

/-- C9 witness: a clean stop with instance exit code 0 at a concrete run. -/
theorem graceful_stop_zero_exit_witness :
    (shutdownPhase ⟨none, 0⟩ ⟨[Sig.term], false, none⟩).1 = 0 :=
  graceful_stop_zero_exit ⟨none, 0⟩ ⟨[Sig.term], false, none⟩
    rfl (by decide) rfl rfl

/-- C6 counterexample: at a concrete creation failure the error line is
written to standard output (`fmt.Printf`), not to the error stream as the
claim states. -/
theorem create_error_goes_to_stdout :
    mainStartup (CreateRes.failure "boom") =
      StartupOutcome.exit 2
        [⟨OutStream.stdout, "error creating an instance: boom"⟩] ∧
    mainStartup (CreateRes.failure "boom") ≠
      StartupOutcome.exit 2
        [⟨OutStream.stderr, "error creating an instance: boom"⟩] := by
  decide

/-- C6 amended: a generic instance-creation failure prints the error to
standard output and exits with code 2, performing no startup or shutdown
logic (the long-running service is never started). -/
theorem create_failure_exits_two (msg : String) :
    mainStartup (CreateRes.failure msg) =
      StartupOutcome.exit 2
        [⟨OutStream.stdout, s!"error creating an instance: {msg}"⟩] ∧
    (mainStartup (CreateRes.failure msg)).startsService = false :=
  ⟨rfl, rfl⟩

/-- C7: on the command-line-operation path, a missing operation exits with
code 3, a successful operation exits with code 0, a failing operation prints
the error to the error stream and exits with code 3, and in all cases the
long-running service is never started. -/
theorem cmdline_op_path (inst : Instance) :
    (inst.commandLineOperation = none →
      mainStartup (CreateRes.cmdLineOp inst) =
        StartupOutcome.exit 3
          [⟨OutStream.stdout,
            "command line operation execution requested, but not set"⟩]) ∧
    (inst.commandLineOperation = some none →
      mainStartup (CreateRes.cmdLineOp inst) = StartupOutcome.exit 0 []) ∧
    (∀ e, inst.commandLineOperation = some (some e) →
      mainStartup (CreateRes.cmdLineOp inst) =
        StartupOutcome.exit 3
          [⟨OutStream.stderr, s!"command line operation failed: {e}"⟩]) ∧
    (mainStartup (CreateRes.cmdLineOp inst)).startsService = false := by
  obtain ⟨clo, ec⟩ := inst
  cases clo with
  | none =>
      refine ⟨fun _ => rfl, fun h => ?_, fun e h => ?_, rfl⟩
      · exact absurd h (by simp)
      · exact absurd h (by simp)
  | some op =>
      cases op with
      | none =>
          refine ⟨fun h => ?_, fun _ => rfl, fun e h => ?_, rfl⟩
          · exact absurd h (by simp)
          · exact absurd h (by simp)
      | some err =>
          refine ⟨fun h => ?_, fun h => ?_, fun e h => ?_, rfl⟩
          · exact absurd h (by simp)
          · exact absurd h (by simp)
          · have herr : err = e := by simpa using h
            subst herr
            rfl

/-- C7 witness: the three command-line-operation cases at concrete
instances. -/
theorem cmdline_op_path_witness :
    mainStartup (CreateRes.cmdLineOp ⟨none, 0⟩) =
      StartupOutcome.exit 3
        [⟨OutStream.stdout,
          "command line operation execution requested, but not set"⟩] ∧
    mainStartup (CreateRes.cmdLineOp ⟨some none, 0⟩) =
      StartupOutcome.exit 0 [] ∧
    mainStartup (CreateRes.cmdLineOp ⟨some (some "bad flag"), 0⟩) =
      StartupOutcome.exit 3
        [⟨OutStream.stderr, "command line operation failed: bad flag"⟩] :=
  ⟨(cmdline_op_path ⟨none, 0⟩).1 rfl,
   (cmdline_op_path ⟨some none, 0⟩).2.1 rfl,
   (cmdline_op_path ⟨some (some "bad flag"), 0⟩).2.2.1 "bad flag" rfl⟩

/-- C10: the firewall filter module's `prep` returns an error exactly when
`registerConfig()` or `prepAPIAuth()` fails — `registerConfig()`'s error
takes precedence — and its result is unchanged if all three event-hook
registration errors are cleared: hook-registration failures alone never make
`prep` fail. -/
theorem prep_error_only_from_config_or_apiauth (e : PrepEnv) :
    (prep e).1 = (if e.registerConfigErr.isSome then e.registerConfigErr
                  else e.prepAPIAuthErr) ∧
    ((prep e).1.isSome ↔ (e.registerConfigErr.isSome ∨ e.prepAPIAuthErr.isSome)) ∧
    (prep e).1 =
      (prep ⟨none, none, none, e.registerConfigErr, e.prepAPIAuthErr⟩).1 := by
  obtain ⟨h1, h2, h3, rc, pa⟩ := e
  cases rc <;> cases pa <;> simp [prep]
